import Mathlib

/-!
Verification of the CerebNet inference orchestration (`CerebNet/inference.py`).

We shallowly embed the pure decision logic of the `Inference` class:
the view-aggregation fusion formula, the argmax class selection,
the post-processing axis permutations, the per-subject data-loader control
flow (validation, conformed-path derivation), the segmentation-statistics
table post-processing, the merged-labels name-prefix matching, and the
batch driver loop.  Logit and intensity values are modelled as rationals
(the aggregation formula holds exactly over the rationals, hence within
any floating-point tolerance), file systems as boolean predicates on path
strings, and asynchronous submissions to the executor pool as an explicit
list of submitted tasks.  Python string operations are modelled on the
underlying character lists so that all definitions evaluate by `rfl`.
-/

namespace CerebNetInference

/-- The three anatomical planes (`PLANES` in the source). -/
inductive Plane : Type
  | axial
  | coronal
  | sagittal
deriving DecidableEq, Repr

/-- Kinds of Python exceptions raised by the embedded code. -/
inductive PyErrKind : Type
  | valueError
  | runtimeError
  | attributeError
deriving DecidableEq, Repr

/-- A raised Python exception: its kind and its message. -/
structure PyErr where
  kind : PyErrKind
  msg : String
deriving DecidableEq, Repr

/-- Python `self.startswith(arg)` on strings, modelled on character lists. -/
def py_startswith (self arg : String) : Bool :=
  arg.toList.isPrefixOf self.toList

/-- Python `self.endswith(arg)` on strings, modelled on character lists. -/
def py_endswith (self arg : String) : Bool :=
  arg.toList.isSuffixOf self.toList

/-- Python `s[:-n]` (drop the last `n` characters), modelled on character lists. -/
def pyDropRight (s : String) (n : ℕ) : String :=
  String.mk (s.toList.take (s.toList.length - n))

/-! ## View aggregation (`Inference._view_aggregation`)

A per-plane logit volume is modelled as a map from voxel index to the list
of per-channel scores at that voxel (the channel axis is the last axis of
the permuted tensors, see `axis_permutation` below).  The source computes
`torch.add((logits['axial'] + logits['coronal']) * 0.4, logits['sagittal'], alpha=0.2)`,
i.e. elementwise `(axial + coronal) * 0.4 + 0.2 * sagittal`, and then takes
`torch.max(aggregated_logits, dim=3)`, whose index output is the first
(lowest) index attaining the maximum along the channel axis. -/

/-- Elementwise fusion of the three per-plane channel score lists at one voxel:
`(a + c) * 0.4 + 0.2 * s`, exactly as in
`torch.add((logits['axial'] + logits['coronal']) * 0.4, logits['sagittal'], alpha=0.2)`. -/
def view_agg_logits {ι : Type} (ax cor sag : ι → List ℚ) (v : ι) : List ℚ :=
  List.zipWith3 (fun a c s => (a + c) * 0.4 + 0.2 * s) (ax v) (cor v) (sag v)

/-- Index tracking loop for the maximum along a list: `i` is the index of the
next element, `best` the index of the current champion, `bv` its value.  A new
element replaces the champion only when strictly larger, so the first maximal
index wins.  This models the index output of `torch.max(·, dim)`, which is
documented to return the first (lowest) index of a maximal value. -/
def torchArgmaxGo : List ℚ → ℕ → ℕ → ℚ → ℕ
  | [], _, best, _ => best
  | y :: ys, i, best, bv =>
    if bv < y then torchArgmaxGo ys (i + 1) i y else torchArgmaxGo ys (i + 1) best bv

/-- Model of the index output of `torch.max(aggregated_logits, dim=3)` at one
voxel: the first (lowest) index of the maximal value of the channel list. -/
def torchArgmax : List ℚ → ℕ
  | [] => 0
  | x :: xs => torchArgmaxGo xs 1 0 x

/-- `Inference._view_aggregation`: fuse the three per-plane logit volumes with
the fixed `0.4/0.4/0.2` weighting and take the per-voxel channel argmax. -/
def view_aggregation {ι : Type} (ax cor sag : ι → List ℚ) (v : ι) : ℕ :=
  torchArgmax (view_agg_logits ax cor sag v)

/-! ## Post-processing of per-plane predictions (`Inference._post_process_preds`)

A 4-D tensor is modelled by its per-axis sizes and a value function on
coordinate assignments (`j : ℕ → ℕ` gives the coordinate for each axis
position `0..3`).  `torch.cat(·, dim=0)` concatenates along axis `0`;
`torch.Tensor.permute(dims)` makes output axis `m` draw from input axis
`dims[m]`, so output coordinate vector `j` reads the input at the coordinate
vector `i ↦ j (dims.indexOf i)`. -/

/-- A 4-D tensor: per-axis sizes and a value for each coordinate assignment. -/
structure PTensor where
  shape : ℕ → ℕ
  dataAt : (ℕ → ℕ) → ℚ

/-- `torch.Tensor.permute(dims)`: output axis `m` draws from input axis `dims[m]`. -/
def permute4 (dims : List ℕ) (t : PTensor) : PTensor where
  shape := fun m => t.shape (dims.getD m 0)
  dataAt := fun j => t.dataAt (fun i => j (dims.indexOf i))

/-- `torch.cat(·, dim=0)`: concatenate a batch sequence along axis `0`. -/
def cat0 : List PTensor → PTensor
  | [] => ⟨fun _ => 0, fun _ => 0⟩
  | t :: ts =>
    { shape := fun m => if m = 0 then t.shape 0 + (cat0 ts).shape 0 else t.shape m
      dataAt := fun j =>
        if j 0 < t.shape 0 then t.dataAt j
        else (cat0 ts).dataAt (fun i => if i = 0 then j 0 - t.shape 0 else j i) }

/-- The fixed plane-specific permutation table `axis_permutation` of
`_post_process_preds`. -/
def axis_permutation : Plane → List ℕ
  | Plane.axial => [3, 0, 2, 1]
  | Plane.coronal => [2, 3, 0, 1]
  | Plane.sagittal => [0, 3, 2, 1]

/-- The pre-permutation stage of `_post_process_preds._convert`: concatenate the
plane's batch sequence along axis `0` and, for the sagittal plane only, expand
its reduced class channels into the full class space via the label mapper's
reverse logit remapping (`self.cereb2cereb_sagittal.map_probs(pred, axis=1, reverse=True)`,
modelled by the abstract channel-axis operation `sagRemap`). -/
def post_process_stage (sagRemap : PTensor → PTensor) (preds : Plane → List PTensor)
    (plane : Plane) : PTensor :=
  if plane = Plane.sagittal then sagRemap (cat0 (preds plane)) else cat0 (preds plane)

/-- `Inference._post_process_preds`: concatenate, remap sagittal channels, and
permute with the plane's fixed permutation. -/
def post_process_preds (sagRemap : PTensor → PTensor) (preds : Plane → List PTensor)
    (plane : Plane) : PTensor :=
  permute4 (axis_permutation plane) (post_process_stage sagRemap preds plane)

/-- A probe tensor whose four axis sizes `(2, 3, 4, 5)` are pairwise distinct,
so each axis of any permuted result can be identified by its size.  Axis `1`
(size `3`) is the class-channel axis of a raw prediction batch. -/
def probeTensor : PTensor := ⟨fun m => m + 2, fun _ => 0⟩

/-- One-element batch sequence of probe tensors for every plane. -/
def probePreds : Plane → List PTensor := fun _ => [probeTensor]

/-! ## Batch pipeline driver (`Inference.run`)

Each subject's processing has two stages with different exception handling:
the data loading (`_get_subject_dataset`) runs inside the iterator
(`iterate`/`pipeline` over the subject list) that the `for` statement
advances, which is OUTSIDE the `try` block, so an exception it raises
propagates out of `run` uncaught; the loop body (predict, post-process,
aggregate, remap, save, optional statistics) runs INSIDE the `try`, so its
exception is logged (`logger.exception(e)`) and `"\n".join(map(str, e.args))`
is returned.  When every subject completes, `run` returns `0`. -/

/-- An arbitrary Python exception: the `str` of each entry of its `args`
tuple. -/
structure PyException where
  args : List String
deriving DecidableEq, Repr

/-- The outcome of one subject's two processing stages: `load` is the
exception raised by `_get_subject_dataset` when the `for` statement advances
the subject iterator (outside the `try`), `body` the exception raised by the
loop body (inside the `try`); `none` means the stage completes. -/
structure SubjectOutcome where
  load : Option PyException
  body : Option PyException
deriving DecidableEq, Repr

/-- How `run` terminates: a normal `return` (the joined failure text or the
success code `0`), or an exception propagating out of `run` uncaught. -/
inductive RunReturn : Type
  | ret (v : Sum String ℕ)
  | raised (e : PyException)
deriving DecidableEq, Repr

/-- Observable result of `Inference.run`: how many subjects entered the loop
body, which exceptions `run` logged, and how it terminated. -/
structure RunResult where
  attempted : ℕ
  logged : List PyException
  outcome : RunReturn
deriving DecidableEq, Repr

/-- `Inference.run`: iterate the subjects in order.  A loader exception is
raised by the `for` statement itself, outside the `try`: `run` neither logs
it nor converts it, it propagates.  A loop-body exception is caught: it is
logged and the joined message is returned.  Otherwise the loop continues,
and `0` is returned after the last subject. -/
def run_driver : List SubjectOutcome → RunResult
  | [] => ⟨0, [], RunReturn.ret (Sum.inr 0)⟩
  | s :: rest =>
    match s.load with
    | some e => ⟨0, [], RunReturn.raised e⟩
    | none =>
      match s.body with
      | some e => ⟨1, [e], RunReturn.ret (Sum.inl (String.intercalate "\n" e.args))⟩
      | none =>
        ⟨(run_driver rest).attempted + 1, (run_driver rest).logged, (run_driver rest).outcome⟩

/-- Specification-side helper: the first subject one of whose stages raises,
together with its position and which stage failed. -/
inductive Abnormal : Type
  | loadFail (k : ℕ) (e : PyException)
  | bodyFail (k : ℕ) (e : PyException)
deriving DecidableEq, Repr

/-- Shift an abnormality one subject later. -/
def Abnormal.shift : Abnormal → Abnormal
  | Abnormal.loadFail k e => Abnormal.loadFail (k + 1) e
  | Abnormal.bodyFail k e => Abnormal.bodyFail (k + 1) e

/-- The first abnormal subject of the batch, if any (the loader runs before
the loop body of the same subject). -/
def firstAbnormal : List SubjectOutcome → Option Abnormal
  | [] => none
  | s :: rest =>
    match s.load with
    | some e => some (Abnormal.loadFail 0 e)
    | none =>
      match s.body with
      | some e => some (Abnormal.bodyFail 0 e)
      | none => (firstAbnormal rest).map Abnormal.shift

/-! ## Statistics table post-processing (`Inference._calc_segstats`)

The `pv_calc` numeric kernel is external; we model the rows of the table it
returns and the subsequent pandas post-processing
`dataframe[dataframe["NVoxels"] != 0].sort_values("SegId")` followed by
re-indexing with `np.arange(1, len(dataframe) + 1)`. -/

/-- One row of the statistics table. -/
structure SegRow where
  SegId : ℤ
  NVoxels : ℕ
  StructName : String
deriving DecidableEq, Repr

/-- Row comparison used by `sort_values("SegId")`. -/
def segRowLE (a b : SegRow) : Prop := a.SegId ≤ b.SegId

instance : DecidableRel segRowLE := fun a b => Int.decLe a.SegId b.SegId

instance : IsTotal SegRow segRowLE := ⟨fun a b => Int.le_total a.SegId b.SegId⟩

instance : IsTrans SegRow segRowLE := ⟨fun _ _ _ h1 h2 => le_trans h1 h2⟩

/-- The dataframe post-processing of `_calc_segstats`: drop rows with zero
voxel count, sort ascending by `SegId`, and re-index the rows `1, 2, ...`.
The result pairs each row with its new index. -/
def calc_segstats_post (table : List SegRow) : List (ℕ × SegRow) :=
  let rows := List.insertionSort segRowLE (table.filter (fun r => r.NVoxels != 0))
  (List.range' 1 rows.length).zip rows

/-! ## Merged-labels specification (`Inference._calc_segstats`, lines 210-216)

The source builds
`merged_labels = {id: filter(lambda lname: lname.startwith(l), freesurfer_id2cereb_name(labels)) for id, l in zip(free_label_ids, meta_labels_short)}`.
Python's `filter` is lazy; the lambda is only invoked when the external
`pv_calc` consumes the dict values.  Attribute lookup on `str` is modelled
explicitly: `startswith` exists, any other method name raises
`AttributeError` at call time. -/

/-- Call a boolean-returning method on a Python `str`: only `startswith`
exists; any other name (such as the source's misspelt `startwith`) raises
`AttributeError` when the lazily filtered value is consumed. -/
def strCallBoolMethod (method : String) (self arg : String) : Except PyErr Bool :=
  if method = "startswith" then Except.ok (py_startswith self arg)
  else Except.error ⟨PyErrKind.attributeError, "'str' object has no attribute '" ++ method ++ "'"⟩

/-- Consuming a lazy Python `filter(p, names)`: the first raised exception
propagates, otherwise the kept elements are returned. -/
def pyFilterEval (p : String → Except PyErr Bool) : List String → Except PyErr (List String)
  | [] => Except.ok []
  | x :: xs => do
    let b ← p x
    let rest ← pyFilterEval p xs
    pure (if b then x :: rest else rest)

/-- `meta_labels` from the source. -/
def meta_labels : List String :=
  ["Left Cerebellar Gray Matter", "Right Cerebellar Gray Matter", "Vermis"]

/-- `meta_labels_short = [ml.split(" ")[0] for ml in meta_labels]`: the first
space-separated word of each merged-region name, modelled on character lists. -/
def meta_labels_short : List String :=
  meta_labels.map (fun ml => String.mk (ml.toList.takeWhile (fun c => c != ' ')))

/-- The source's `merged_labels` dict comprehension, with each value being the
result of consuming the lazy `filter(lambda lname: lname.startwith(l), names)`. -/
def merged_labels (free_label_ids : List ℕ) (subregion_names : List String) :
    List (ℕ × Except PyErr (List String)) :=
  (free_label_ids.zip meta_labels_short).map
    (fun q => (q.1, pyFilterEval (fun lname => strCallBoolMethod "startwith" lname q.2) subregion_names))

/-- The intended merged-labels specification (per the spec's "merge by
anatomical name prefix" policy, i.e. with `startswith` spelt correctly). -/
def merged_labels_intended (free_label_ids : List ℕ) (subregion_names : List String) :
    List (ℕ × List String) :=
  (free_label_ids.zip meta_labels_short).map
    (fun q => (q.1, subregion_names.filter (fun lname => py_startswith lname q.2)))

/-! ## Subject data loader (`Inference._get_subject_dataset`)

File systems are modelled by boolean predicates on path strings (`isfile`,
and the header-only 1mm conformance check `is_conform`).  Submissions to the
executor pool (`pool.submit(load_image, ...)`,
`pool.submit(load_and_conform_image, ...)`) are collected in an explicit task
list, which is produced even when the loader raises. -/

/-- A subject descriptor: the attributes `_get_subject_dataset` queries. -/
structure SubjectDirectory where
  hasCerebStatsfile : Bool
  canResolveCerebStatsfile : Bool
  hasNormName : Bool
  normName : String
  subjectDir : String
  aparc_aseg_segfile : String
  conf_name : String
  orig_name : String
deriving DecidableEq, Repr

/-- The file system visible to the loader. -/
structure FileSystem where
  isfile : String → Bool
  isConform1mm : String → Bool

/-- `SubjectDirectory.filename_in_subject_folder`. -/
def filename_in_subject_folder (sub : SubjectDirectory) (name : String) : String :=
  sub.subjectDir ++ "/" ++ name

/-- Modelled from the spec: the CLI flag naming an option
(`ALL_FLAGS[name](dict)['flag']` of the external parser defaults). -/
def cli_flag (option : String) : String := "--" ++ option

/-- A task submitted to the executor pool by the loader. -/
inductive SubmittedTask : Type
  | loadImage (path : String)
  | loadAndConform (path : String)
deriving DecidableEq, Repr

/-- The loader's successful result: the loaded intensity volume (modelled by
its path) and its path (both `none` without a statistics request), the
conformed file in use, whether conformation was performed, and the dataset's
image and segmentation sources. -/
structure LoaderOutcome where
  norm : Option String
  normFile : Option String
  confFile : String
  conformPerformed : Bool
  datasetImg : String
  datasetSeg : String
deriving DecidableEq, Repr

/-- `SUPPORTED_OUTPUT_FILE_FORMATS` is imported from the external
`FastSurferCNN.data_loader.data_utils`; the loader is parameterised over it. -/
def get_subject_dataset_rest (formats : List String) (fs : FileSystem)
    (sub : SubjectDirectory) (tasks0 : List SubmittedTask) (normFile : Option String) :
    List SubmittedTask × Except PyErr LoaderOutcome :=
  if fs.isfile sub.aparc_aseg_segfile then
    let tasks1 := tasks0 ++ [SubmittedTask.loadImage sub.aparc_aseg_segfile]
    if fs.isfile sub.conf_name && fs.isConform1mm sub.conf_name then
      (tasks1, Except.ok
        { norm := normFile, normFile := normFile, confFile := sub.conf_name
          conformPerformed := false, datasetImg := sub.conf_name
          datasetSeg := sub.aparc_aseg_segfile })
    else
      let fileext := formats.filter (fun fext => py_endswith sub.conf_name ("." ++ fext))
      if fileext.length = 1 then
        let fext := fileext.headD ""
        let conf_no_fileext0 := pyDropRight sub.conf_name (fext.length + 1)
        let conf_no_fileext :=
          if py_endswith conf_no_fileext0 ".1mm" then conf_no_fileext0
          else conf_no_fileext0 ++ ".1mm"
        let orig_file := if fs.isfile sub.orig_name then sub.orig_name else sub.conf_name
        let conf_file := conf_no_fileext ++ "." ++ fext
        (tasks1 ++ [SubmittedTask.loadAndConform orig_file], Except.ok
          { norm := normFile, normFile := normFile, confFile := conf_file
            conformPerformed := true, datasetImg := conf_file
            datasetSeg := sub.aparc_aseg_segfile })
      else
        (tasks1, Except.error ⟨PyErrKind.runtimeError,
          "Invalid file extension of conf_name: " ++ sub.conf_name ++
            ", must be one of " ++ String.intercalate ", " formats ++ "."⟩)
  else
    (tasks0, Except.error ⟨PyErrKind.runtimeError,
      "The aparc-aseg-segmentation file '" ++ sub.aparc_aseg_segfile ++
        "' did not exist, please run FastSurferVINN first."⟩)

/-- `Inference._get_subject_dataset`: the statistics-request validation,
followed by the localization prerequisites and the conformed-volume logic.
The second validation condition mirrors the source verbatim
(`if not subject.has_attribute('norm_name') or subject.fileexists_by_attribute('norm_name')`):
it raises when the bias-field file EXISTS, although its own message says the
error is for a missing file. -/
def get_subject_dataset (formats : List String) (fs : FileSystem)
    (sub : SubjectDirectory) : List SubmittedTask × Except PyErr LoaderOutcome :=
  if sub.hasCerebStatsfile then
    if !sub.canResolveCerebStatsfile then
      ([], Except.error ⟨PyErrKind.valueError,
        "Cannot resolve the intended filename " ++ sub.normName ++
          " for the cereb_statsfile, maybe specify an absolute path via " ++
          cli_flag "cereb_statsfile" ++ "."⟩)
    else if !sub.hasNormName || fs.isfile (filename_in_subject_folder sub sub.normName) then
      ([], Except.error ⟨PyErrKind.valueError,
        "Cannot resolve the file name " ++ sub.normName ++
          " for the bias field corrected image, maybe specify an absolute path via " ++
          cli_flag "norm_name" ++ " or the file does not exist."⟩)
    else
      get_subject_dataset_rest formats fs sub
        [SubmittedTask.loadImage (filename_in_subject_folder sub sub.normName)]
        (some (filename_in_subject_folder sub sub.normName))
  else
    get_subject_dataset_rest formats fs sub [] none

/-! ### Concrete fixtures used by witnesses and counterexamples. -/

/-- The supported output file formats of the external
`FastSurferCNN.data_loader.data_utils`. -/
def fmts : List String := ["mgz", "nii", "nii.gz"]

/-- A subject requesting a statistics output. -/
def subjStats : SubjectDirectory :=
  { hasCerebStatsfile := true, canResolveCerebStatsfile := true, hasNormName := true
    normName := "norm.mgz", subjectDir := "sd", aparc_aseg_segfile := "sd/aseg.mgz"
    conf_name := "sd/orig.mgz", orig_name := "sd/raw.mgz" }

/-- The same subject without a statistics request. -/
def subjNoStats : SubjectDirectory :=
  { subjStats with hasCerebStatsfile := false }

/-- All input files present; the conformed file is already 1mm-conformed. -/
def fsAll : FileSystem :=
  ⟨fun p => List.contains ["sd/norm.mgz", "sd/aseg.mgz", "sd/orig.mgz"] p, fun _ => true⟩

/-- Same, but the bias-field (norm) file is missing. -/
def fsNoNorm : FileSystem :=
  ⟨fun p => List.contains ["sd/aseg.mgz", "sd/orig.mgz"] p, fun _ => true⟩

/-- The segmentation prerequisite is missing. -/
def fsNoAseg : FileSystem := ⟨fun _ => false, fun _ => false⟩

/-- The conformed file is missing (conformation needed); the original exists. -/
def fsNoConf : FileSystem :=
  ⟨fun p => List.contains ["sd/aseg.mgz", "sd/raw.mgz"] p, fun _ => false⟩

/-- The statistics-request stage passes (no exception is raised before the
localization step): either no statistics output is requested, or it is
resolvable, the norm filename attribute is present, and — due to the inverted
check in the source — the norm file does not exist. -/
def statsStagePasses (fs : FileSystem) (sub : SubjectDirectory) : Prop :=
  sub.hasCerebStatsfile = false ∨
    (sub.canResolveCerebStatsfile = true ∧ sub.hasNormName = true ∧
      fs.isfile (filename_in_subject_folder sub sub.normName) = false)

/-!
# Theorems
-/

/-- Elements of `zipWith3` under matching lengths. -/
theorem zipWith3_getD (f : ℚ → ℚ → ℚ → ℚ) :
    ∀ (as bs cs : List ℚ) (i : ℕ), i < as.length → as.length = bs.length →
      bs.length = cs.length →
      (List.zipWith3 f as bs cs).getD i 0 = f (as.getD i 0) (bs.getD i 0) (cs.getD i 0) := by
  intro as
  induction as with
  | nil => intro bs cs i hi _ _; exact absurd hi (by simp)
  | cons a as ih =>
    intro bs cs i hi h1 h2
    cases bs with
    | nil => exact absurd h1 (by simp)
    | cons b bs =>
      cases cs with
      | nil => exact absurd h2 (by simp)
      | cons c cs =>
        cases i with
        | zero => rfl
        | succ i =>
          simp only [List.zipWith3, List.getD_cons_succ]
          exact ih bs cs i (by simpa using hi) (by simpa using h1) (by simpa using h2)

/-- Invariant-carrying specification of `torchArgmaxGo`: if `ys` is the suffix
of `l` starting at `i`, `best < i` is the first index of the maximum of the
prefix `l[0..i)` and `bv` its value, then the loop returns the first index of
the maximum of all of `l`. -/
theorem torchArgmaxGo_spec (l : List ℚ) :
    ∀ (ys : List ℚ) (i best : ℕ) (bv : ℚ),
      ys = l.drop i → i ≤ l.length → best < i → l.getD best 0 = bv →
      (∀ j < i, l.getD j 0 ≤ bv) → (∀ j < best, l.getD j 0 < bv) →
      torchArgmaxGo ys i best bv < l.length ∧
      (∀ j < l.length, l.getD j 0 ≤ l.getD (torchArgmaxGo ys i best bv) 0) ∧
      (∀ j < torchArgmaxGo ys i best bv, l.getD j 0 < l.getD (torchArgmaxGo ys i best bv) 0) := by
  intro ys
  induction ys with
  | nil =>
    intro i best bv hdrop hi hbesti hbv hle hlt
    subst hbv
    have hlen : l.length ≤ i := by
      by_contra hcon
      push_neg at hcon
      have := List.drop_eq_nil_iff.mp hdrop.symm
      omega
    have hieq : i = l.length := le_antisymm hi hlen
    simp only [torchArgmaxGo]
    exact ⟨by omega, fun j hj => hle j (by omega), fun j hj => hlt j hj⟩
  | cons y ys ih =>
    intro i best bv hdrop hi hbesti hbv hle hlt
    have hilt : i < l.length := by
      by_contra hcon
      push_neg at hcon
      have : l.drop i = [] := List.drop_eq_nil_iff.mpr hcon
      rw [this] at hdrop
      exact List.noConfusion hdrop
    have hcons : l.drop i = l.getD i 0 :: l.drop (i + 1) := by
      rw [List.getD_eq_getElem l 0 hilt]
      exact List.drop_eq_getElem_cons hilt
    rw [hcons] at hdrop
    have hy : y = l.getD i 0 := (List.cons.injEq _ _ _ _ ▸ hdrop).1
    have hys : ys = l.drop (i + 1) := (List.cons.injEq _ _ _ _ ▸ hdrop).2
    by_cases hcmp : bv < y
    · have := ih (i + 1) i y hys (by omega) (by omega) hy.symm
        (fun j hj => by
          rcases Nat.lt_succ_iff_lt_or_eq.mp hj with hj' | hj'
          · exact le_of_lt (lt_of_le_of_lt (hle j hj') (hy ▸ hcmp))
          · rw [hj', ← hy])
        (fun j hj => lt_of_le_of_lt (hle j hj) (hy ▸ hcmp))
      simpa [torchArgmaxGo, hcmp] using this
    · have := ih (i + 1) best bv hys (by omega) (by omega) hbv
        (fun j hj => by
          rcases Nat.lt_succ_iff_lt_or_eq.mp hj with hj' | hj'
          · exact hle j hj'
          · rw [hj', ← hy]; exact not_lt.mp hcmp)
        hlt
      simpa [torchArgmaxGo, hcmp] using this

/-- The modelled `torch.max(·, dim)` index output on a nonempty list is the
first index of the maximum: it is in bounds, its value dominates every entry,
and every strictly earlier entry is strictly smaller. -/
theorem torchArgmax_spec (l : List ℚ) (h : l ≠ []) :
    torchArgmax l < l.length ∧
    (∀ j < l.length, l.getD j 0 ≤ l.getD (torchArgmax l) 0) ∧
    (∀ j < torchArgmax l, l.getD j 0 < l.getD (torchArgmax l) 0) := by
  cases l with
  | nil => exact absurd rfl h
  | cons x xs =>
    have := torchArgmaxGo_spec (x :: xs) xs 1 0 x (by simp) (by simp) (by omega) (by simp)
      (fun j hj => by
        have hj0 : j = 0 := by omega
        rw [hj0]
        simp)
      (fun j hj => by omega)
    simpa [torchArgmax] using this

/-- C1: for every triple of per-plane logit volumes of equal shape, the
view-aggregation step produces per-voxel fused scores equal to
`0.4*(axial + coronal) + 0.2*sagittal` (exactly, over the rationals). -/
theorem view_aggregation_fusion_weights {ι : Type} (ax cor sag : ι → List ℚ) (v : ι) (i : ℕ)
    (h1 : (ax v).length = (cor v).length) (h2 : (cor v).length = (sag v).length)
    (hi : i < (ax v).length) :
    (view_agg_logits ax cor sag v).getD i 0 =
      0.4 * ((ax v).getD i 0 + (cor v).getD i 0) + 0.2 * (sag v).getD i 0 := by
  rw [view_agg_logits, zipWith3_getD _ _ _ _ i hi h1 h2]
  ring

theorem view_aggregation_fusion_weights_witness :
    (0 : ℕ) < [(1 : ℚ), 2].length ∧
    (view_agg_logits (fun _ : Unit => [(1 : ℚ), 2]) (fun _ => [3, 4]) (fun _ => [5, 6]) ()).getD 0 0 =
      0.4 * ((1 : ℚ) + 3) + 0.2 * 5 :=
  ⟨by decide,
   view_aggregation_fusion_weights (fun _ : Unit => [(1 : ℚ), 2]) (fun _ => [3, 4])
     (fun _ => [5, 6]) () 0 rfl rfl (by decide)⟩

/-- C6: the predicted class at each voxel is the channel index of the maximum
fused score, and when several channels hold exactly equal maximal fused scores
the lowest channel index is selected (every channel before the selected one is
strictly smaller). -/
theorem view_aggregation_argmax_spec {ι : Type} (ax cor sag : ι → List ℚ) (v : ι) (j : ℕ)
    (h : view_agg_logits ax cor sag v ≠ []) :
    view_aggregation ax cor sag v < (view_agg_logits ax cor sag v).length ∧
    (j < (view_agg_logits ax cor sag v).length →
      (view_agg_logits ax cor sag v).getD j 0 ≤
        (view_agg_logits ax cor sag v).getD (view_aggregation ax cor sag v) 0) ∧
    (j < view_aggregation ax cor sag v →
      (view_agg_logits ax cor sag v).getD j 0 <
        (view_agg_logits ax cor sag v).getD (view_aggregation ax cor sag v) 0) := by
  obtain ⟨hb, hmax, hfirst⟩ := torchArgmax_spec (view_agg_logits ax cor sag v) h
  exact ⟨hb, fun hj => hmax j hj, fun hj => hfirst j hj⟩

theorem view_aggregation_argmax_spec_witness :
    (view_agg_logits (fun _ : Unit => [(1 : ℚ), 3, 3]) (fun _ => [0, 0, 0]) (fun _ => [0, 0, 0]) () ≠ []) ∧
    (view_aggregation (fun _ : Unit => [(1 : ℚ), 3, 3]) (fun _ => [0, 0, 0]) (fun _ => [0, 0, 0]) () <
      (view_agg_logits (fun _ : Unit => [(1 : ℚ), 3, 3]) (fun _ => [0, 0, 0]) (fun _ => [0, 0, 0]) ()).length ∧
    ((0 : ℕ) < (view_agg_logits (fun _ : Unit => [(1 : ℚ), 3, 3]) (fun _ => [0, 0, 0]) (fun _ => [0, 0, 0]) ()).length →
      (view_agg_logits (fun _ : Unit => [(1 : ℚ), 3, 3]) (fun _ => [0, 0, 0]) (fun _ => [0, 0, 0]) ()).getD 0 0 ≤
        (view_agg_logits (fun _ : Unit => [(1 : ℚ), 3, 3]) (fun _ => [0, 0, 0]) (fun _ => [0, 0, 0]) ()).getD
          (view_aggregation (fun _ : Unit => [(1 : ℚ), 3, 3]) (fun _ => [0, 0, 0]) (fun _ => [0, 0, 0]) ()) 0) ∧
    ((0 : ℕ) < view_aggregation (fun _ : Unit => [(1 : ℚ), 3, 3]) (fun _ => [0, 0, 0]) (fun _ => [0, 0, 0]) () →
      (view_agg_logits (fun _ : Unit => [(1 : ℚ), 3, 3]) (fun _ => [0, 0, 0]) (fun _ => [0, 0, 0]) ()).getD 0 0 <
        (view_agg_logits (fun _ : Unit => [(1 : ℚ), 3, 3]) (fun _ => [0, 0, 0]) (fun _ => [0, 0, 0]) ()).getD
          (view_aggregation (fun _ : Unit => [(1 : ℚ), 3, 3]) (fun _ => [0, 0, 0]) (fun _ => [0, 0, 0]) ()) 0)) :=
  ⟨by decide,
   view_aggregation_argmax_spec (fun _ : Unit => [(1 : ℚ), 3, 3]) (fun _ => [0, 0, 0])
     (fun _ => [0, 0, 0]) () 0 (by decide)⟩

/-- Concatenation along axis 0 sums the axis-0 sizes of the batch sequence. -/
theorem cat0_shape_zero : ∀ ts : List PTensor,
    (cat0 ts).shape 0 = (ts.map (fun t => t.shape 0)).sum := by
  intro ts
  induction ts with
  | nil => rfl
  | cons t ts ih => simp [cat0, ih]

/-- C7, counterexample: post-processing does NOT put the class-channel axis at
position 1 of the canonical layout.  For the axial plane, the output's axis 1
has the size of the input's axis 0 (the slicing axis), not the channel size;
the channel-sized axis ends up at position 3 (last). -/
theorem post_process_channel_not_second :
    (cat0 (probePreds Plane.axial)).shape 1 = 3 ∧
    (post_process_preds id probePreds Plane.axial).shape 1 = 2 ∧
    (post_process_preds id probePreds Plane.axial).shape 3 = 3 ∧
    (2 : ℕ) ≠ 3 :=
  ⟨rfl, rfl, rfl, by decide⟩

/-- C7, amended: post-processing concatenates each plane's batch sequence along
axis 0, applies the reverse logit remapping to the sagittal plane only, and
permutes each plane with its fixed permutation into the common canonical layout
whose LAST axis (position 3) is the class-channel axis: output axis 3 draws
from input axis 1, and the input channel axis is read at output coordinate 3. -/
theorem post_process_preds_canonical_layout (sagRemap : PTensor → PTensor)
    (preds : Plane → List PTensor) (plane : Plane) (j : ℕ → ℕ) :
    (post_process_preds sagRemap preds plane).shape 3 =
      (post_process_stage sagRemap preds plane).shape 1 ∧
    (axis_permutation plane).getD 3 0 = 1 ∧
    (axis_permutation plane).indexOf 1 = 3 ∧
    (post_process_preds sagRemap preds plane).dataAt j =
      (post_process_stage sagRemap preds plane).dataAt
        (fun i => j ((axis_permutation plane).indexOf i)) ∧
    (plane ≠ Plane.sagittal → post_process_stage sagRemap preds plane = cat0 (preds plane)) ∧
    (cat0 (preds plane)).shape 0 = ((preds plane).map (fun t => t.shape 0)).sum := by
  cases plane with
  | axial => exact ⟨rfl, rfl, by decide, rfl, fun _ => rfl, cat0_shape_zero _⟩
  | coronal => exact ⟨rfl, rfl, by decide, rfl, fun _ => rfl, cat0_shape_zero _⟩
  | sagittal => exact ⟨rfl, rfl, by decide, rfl, fun h => absurd rfl h, cat0_shape_zero _⟩

theorem post_process_preds_canonical_layout_witness :
    (post_process_preds id probePreds Plane.coronal).shape 3 =
      (post_process_stage id probePreds Plane.coronal).shape 1 ∧
    (axis_permutation Plane.coronal).getD 3 0 = 1 ∧
    (axis_permutation Plane.coronal).indexOf 1 = 3 ∧
    (post_process_preds id probePreds Plane.coronal).dataAt id =
      (post_process_stage id probePreds Plane.coronal).dataAt
        (fun i => id ((axis_permutation Plane.coronal).indexOf i)) ∧
    post_process_stage id probePreds Plane.coronal = cat0 (probePreds Plane.coronal) ∧
    (cat0 (probePreds Plane.coronal)).shape 0 =
      ((probePreds Plane.coronal).map (fun t => t.shape 0)).sum := by
  obtain ⟨h1, h2, h3, h4, h5, h6⟩ :=
    post_process_preds_canonical_layout id probePreds Plane.coronal id
  exact ⟨h1, h2, h3, h4, h5 (by decide), h6⟩

/-- C2, counterexample: a subject whose data loading raises is NOT handled as
the claim states.  With a single subject whose loader raises `boom`, `run`
logs nothing and does not return the joined failure text: the exception
propagates out of `run` uncaught (the `for` statement advancing the subject
iterator sits outside the `try` block). -/
theorem run_loader_exception_uncaught :
    run_driver [⟨some ⟨["boom"]⟩, none⟩] = ⟨0, [], RunReturn.raised ⟨["boom"]⟩⟩ ∧
    (run_driver [⟨some ⟨["boom"]⟩, none⟩]).logged = [] ∧
    (run_driver [⟨some ⟨["boom"]⟩, none⟩]).outcome ≠
      RunReturn.ret (Sum.inl (String.intercalate "\n" ["boom"])) :=
  ⟨rfl, rfl, by decide⟩

/-- C2, amended: the driver loop processes subjects in order up to the first
abnormal one.  If that subject's LOOP BODY raises, the exception is logged,
the joined (`"\n".join`) string of its arguments is returned as the failure
text, and no subsequent subject is processed.  If instead its DATA LOADING
raises (in `_get_subject_dataset`, advanced by the `for` statement outside
the `try`), the exception propagates out of `run` uncaught — nothing is
logged and no failure text is returned — and no subsequent subject is
processed.  If every subject completes, the driver returns `0`. -/
theorem run_driver_spec (outcomes : List SubjectOutcome) :
    run_driver outcomes =
      match firstAbnormal outcomes with
      | none => ⟨outcomes.length, [], RunReturn.ret (Sum.inr 0)⟩
      | some (Abnormal.loadFail k e) => ⟨k, [], RunReturn.raised e⟩
      | some (Abnormal.bodyFail k e) =>
        ⟨k + 1, [e], RunReturn.ret (Sum.inl (String.intercalate "\n" e.args))⟩ := by
  induction outcomes with
  | nil => rfl
  | cons s rest ih =>
    cases hl : s.load with
    | some e => simp [run_driver, firstAbnormal, hl]
    | none =>
      cases hb : s.body with
      | some e => simp [run_driver, firstAbnormal, hl, hb]
      | none =>
        cases ha : firstAbnormal rest with
        | none => simp [run_driver, firstAbnormal, hl, hb, ih, ha]
        | some a =>
          cases a with
          | loadFail k e => simp [run_driver, firstAbnormal, Abnormal.shift, hl, hb, ih, ha]
          | bodyFail k e => simp [run_driver, firstAbnormal, Abnormal.shift, hl, hb, ih, ha]

/-- C5: in the post-processed statistics table, every row has a nonzero voxel
count, the rows are sorted ascending by `SegId`, and the row indices are the
consecutive sequence starting at `1`. -/
theorem calc_segstats_post_spec (table : List SegRow) (p : ℕ × SegRow)
    (hp : p ∈ calc_segstats_post table) :
    p.2.NVoxels ≠ 0 ∧
    List.Sorted (· ≤ ·) ((calc_segstats_post table).map (fun q => q.2.SegId)) ∧
    (calc_segstats_post table).map Prod.fst =
      List.range' 1 ((calc_segstats_post table).length) := by
  have hcalc : calc_segstats_post table =
      (List.range' 1 (List.insertionSort segRowLE (table.filter (fun r => r.NVoxels != 0))).length).zip
        (List.insertionSort segRowLE (table.filter (fun r => r.NVoxels != 0))) := rfl
  set rows := List.insertionSort segRowLE (table.filter (fun r => r.NVoxels != 0)) with hrows
  have hlen : (List.range' 1 rows.length).length = rows.length := by simp
  refine ⟨?_, ?_, ?_⟩
  · have hmem : p.2 ∈ rows := (List.of_mem_zip (hcalc ▸ hp)).2
    have hperm := List.perm_insertionSort segRowLE (table.filter (fun r => r.NVoxels != 0))
    have hmem2 : p.2 ∈ table.filter (fun r => r.NVoxels != 0) :=
      hperm.mem_iff.mp (hrows ▸ hmem)
    have := (List.mem_filter.mp hmem2).2
    simpa using this
  · have hs : List.Sorted segRowLE rows := List.sorted_insertionSort segRowLE _
    have hsnd : (calc_segstats_post table).map Prod.snd = rows := by
      rw [hcalc]
      exact List.map_snd_zip _ _ (le_of_eq hlen.symm)
    have hmap : (calc_segstats_post table).map (fun q => q.2.SegId) =
        rows.map (fun r => r.SegId) := by
      rw [← hsnd, List.map_map]
      rfl
    rw [hmap]
    exact List.Pairwise.map _ (fun a b hab => hab) hs
  · have hlen2 : (calc_segstats_post table).length = rows.length := by
      rw [hcalc]
      simp
    rw [hlen2, hcalc]
    exact List.map_fst_zip _ _ (le_of_eq hlen)

theorem calc_segstats_post_spec_witness :
    ((1 : ℕ), (⟨5, 2, "b"⟩ : SegRow)) ∈
      calc_segstats_post [⟨8, 0, "z"⟩, ⟨7, 3, "a"⟩, ⟨5, 2, "b"⟩] ∧
    ((⟨5, 2, "b"⟩ : SegRow).NVoxels ≠ 0 ∧
      List.Sorted (· ≤ ·)
        ((calc_segstats_post [⟨8, 0, "z"⟩, ⟨7, 3, "a"⟩, ⟨5, 2, "b"⟩]).map (fun q => q.2.SegId)) ∧
      (calc_segstats_post [⟨8, 0, "z"⟩, ⟨7, 3, "a"⟩, ⟨5, 2, "b"⟩]).map Prod.fst =
        List.range' 1 ((calc_segstats_post [⟨8, 0, "z"⟩, ⟨7, 3, "a"⟩, ⟨5, 2, "b"⟩]).length)) :=
  ⟨by decide, calc_segstats_post_spec [⟨8, 0, "z"⟩, ⟨7, 3, "a"⟩, ⟨5, 2, "b"⟩]
    ((1 : ℕ), (⟨5, 2, "b"⟩ : SegRow)) (by decide)⟩

/-- C4: the merged-labels comprehension calls the misspelt string method
`startwith`, so consuming any of its lazily filtered values raises
`AttributeError` instead of grouping the prefix-matching sub-region names;
with the intended `startswith`, the same inputs group each sub-region under
the corresponding synthesized region id. -/
theorem merged_labels_attribute_error :
    merged_labels [637, 638, 639] ["Left_I_IV", "Right_I_IV", "Vermis_VI"] =
      [(637, Except.error ⟨PyErrKind.attributeError, "'str' object has no attribute 'startwith'"⟩),
       (638, Except.error ⟨PyErrKind.attributeError, "'str' object has no attribute 'startwith'"⟩),
       (639, Except.error ⟨PyErrKind.attributeError, "'str' object has no attribute 'startwith'"⟩)] ∧
    merged_labels_intended [637, 638, 639] ["Left_I_IV", "Right_I_IV", "Vermis_VI"] =
      [(637, ["Left_I_IV"]), (638, ["Right_I_IV"]), (639, ["Vermis_VI"])] :=
  ⟨rfl, rfl⟩

/-- C3: the statistics-request validation of the norm file is inverted in the
code.  With the statistics output requested and the norm file PRESENT
(`fsAll`), the loader raises the "Cannot resolve the file name ... or the file
does not exist" configuration error; with the norm file ABSENT (`fsNoNorm`),
it proceeds and submits the asynchronous load of the missing norm file. -/
theorem norm_file_existence_check_inverted :
    (get_subject_dataset fmts fsAll subjStats).2 =
      Except.error ⟨PyErrKind.valueError,
        "Cannot resolve the file name norm.mgz for the bias field corrected image, maybe specify an absolute path via --norm_name or the file does not exist."⟩ ∧
    get_subject_dataset fmts fsNoNorm subjStats =
      ([SubmittedTask.loadImage "sd/norm.mgz", SubmittedTask.loadImage "sd/aseg.mgz"],
       Except.ok ⟨some "sd/norm.mgz", some "sd/norm.mgz", "sd/orig.mgz", false,
         "sd/orig.mgz", "sd/aseg.mgz"⟩) :=
  ⟨rfl, rfl⟩

/-- After the statistics-stage checks, the loader always submits the
asynchronous load of the existing `aparc_aseg` segmentation. -/
theorem get_subject_dataset_rest_loads_seg (formats : List String) (fs : FileSystem)
    (sub : SubjectDirectory) (tasks0 : List SubmittedTask) (normFile : Option String)
    (h : fs.isfile sub.aparc_aseg_segfile = true) :
    SubmittedTask.loadImage sub.aparc_aseg_segfile ∈
      (get_subject_dataset_rest formats fs sub tasks0 normFile).1 := by
  simp only [get_subject_dataset_rest, h, if_true]
  split
  · simp
  · split
    · simp
    · simp

/-- When the statistics stage passes, the loader is the localization part. -/
theorem get_subject_dataset_reduces (formats : List String) (fs : FileSystem)
    (sub : SubjectDirectory) (hstats : statsStagePasses fs sub) :
    (sub.hasCerebStatsfile = false ∧
      get_subject_dataset formats fs sub = get_subject_dataset_rest formats fs sub [] none) ∨
    (sub.hasCerebStatsfile = true ∧
      get_subject_dataset formats fs sub = get_subject_dataset_rest formats fs sub
        [SubmittedTask.loadImage (filename_in_subject_folder sub sub.normName)]
        (some (filename_in_subject_folder sub sub.normName))) := by
  rcases hstats with h | ⟨h1, h2, h3⟩
  · exact Or.inl ⟨h, by simp [get_subject_dataset, h]⟩
  · by_cases h0 : sub.hasCerebStatsfile = true
    · exact Or.inr ⟨h0, by simp [get_subject_dataset, h0, h1, h2, h3]⟩
    · exact Or.inl ⟨by simpa using h0, by simp [get_subject_dataset, Bool.eq_false_iff.mpr h0]⟩

/-- C8: provided the statistics-request stage did not raise, a missing
`aparc_aseg` segmentation makes the loader fail with the prerequisite error
naming the missing file and FastSurferVINN, and an existing one has its
asynchronous load submitted. -/
theorem aparc_aseg_prerequisite (formats : List String) (fs : FileSystem)
    (sub : SubjectDirectory) (hstats : statsStagePasses fs sub) :
    (fs.isfile sub.aparc_aseg_segfile = false →
      (get_subject_dataset formats fs sub).2 =
        Except.error ⟨PyErrKind.runtimeError,
          "The aparc-aseg-segmentation file '" ++ sub.aparc_aseg_segfile ++
            "' did not exist, please run FastSurferVINN first."⟩) ∧
    (fs.isfile sub.aparc_aseg_segfile = true →
      SubmittedTask.loadImage sub.aparc_aseg_segfile ∈ (get_subject_dataset formats fs sub).1) := by
  have hred : ∃ t0 nf, get_subject_dataset formats fs sub =
      get_subject_dataset_rest formats fs sub t0 nf := by
    rcases get_subject_dataset_reduces formats fs sub hstats with ⟨-, h⟩ | ⟨-, h⟩
    · exact ⟨_, _, h⟩
    · exact ⟨_, _, h⟩
  obtain ⟨t0, nf, hred⟩ := hred
  rw [hred]
  constructor
  · intro h4
    simp [get_subject_dataset_rest, h4]
  · intro h4
    exact get_subject_dataset_rest_loads_seg formats fs sub t0 nf h4

theorem aparc_aseg_prerequisite_witness :
    (get_subject_dataset fmts fsNoAseg subjNoStats).2 =
      Except.error ⟨PyErrKind.runtimeError,
        "The aparc-aseg-segmentation file 'sd/aseg.mgz' did not exist, please run FastSurferVINN first."⟩ ∧
    SubmittedTask.loadImage "sd/aseg.mgz" ∈ (get_subject_dataset fmts fsAll subjNoStats).1 := by
  constructor
  · have h := (aparc_aseg_prerequisite fmts fsNoAseg subjNoStats (Or.inl rfl)).1 rfl
    exact h
  · have h := (aparc_aseg_prerequisite fmts fsAll subjNoStats (Or.inl rfl)).2 rfl
    exact h

/-- C9: when the conformed volume must be produced (it is absent or not
1mm-conformed), the loader raises when the conf filename does not end in
exactly one supported output format, and otherwise derives the conformed
output path by inserting the `.1mm` marker immediately before the recognized
extension. -/
theorem conformed_path_derivation (formats : List String) (fs : FileSystem)
    (sub : SubjectDirectory) (fext : String)
    (hstats : statsStagePasses fs sub)
    (haseg : fs.isfile sub.aparc_aseg_segfile = true)
    (hconf : (fs.isfile sub.conf_name && fs.isConform1mm sub.conf_name) = false) :
    ((formats.filter (fun e => py_endswith sub.conf_name ("." ++ e))).length ≠ 1 →
      (get_subject_dataset formats fs sub).2 =
        Except.error ⟨PyErrKind.runtimeError,
          "Invalid file extension of conf_name: " ++ sub.conf_name ++
            ", must be one of " ++ String.intercalate ", " formats ++ "."⟩) ∧
    (formats.filter (fun e => py_endswith sub.conf_name ("." ++ e)) = [fext] →
      py_endswith (pyDropRight sub.conf_name (fext.length + 1)) ".1mm" = false →
      ((get_subject_dataset formats fs sub).2).toOption.map LoaderOutcome.confFile =
        some (pyDropRight sub.conf_name (fext.length + 1) ++ ".1mm" ++ "." ++ fext)) := by
  have hred : ∃ t0 nf, get_subject_dataset formats fs sub =
      get_subject_dataset_rest formats fs sub t0 nf := by
    rcases get_subject_dataset_reduces formats fs sub hstats with ⟨-, h⟩ | ⟨-, h⟩
    · exact ⟨_, _, h⟩
    · exact ⟨_, _, h⟩
  obtain ⟨t0, nf, hred⟩ := hred
  rw [hred]
  constructor
  · intro hne
    simp [get_subject_dataset_rest, haseg, hconf, hne]
  · intro hfx hstem
    simp [get_subject_dataset_rest, haseg, hconf, hfx, hstem, Except.toOption]

theorem conformed_path_derivation_witness :
    fsNoConf.isfile subjNoStats.aparc_aseg_segfile = true ∧
    (fsNoConf.isfile subjNoStats.conf_name && fsNoConf.isConform1mm subjNoStats.conf_name) = false ∧
    ((get_subject_dataset fmts fsNoConf subjNoStats).2).toOption.map LoaderOutcome.confFile =
      some "sd/orig.1mm.mgz" := by
  refine ⟨rfl, rfl, ?_⟩
  have h := (conformed_path_derivation fmts fsNoConf subjNoStats "mgz"
    (Or.inl rfl) rfl rfl).2 rfl rfl
  exact h

/-- C10: for a subject without a statistics request, a successful load returns
`none` for both the intensity volume and the intensity-volume path (while
still returning the constructed localized dataset in the same result). -/
theorem no_stats_returns_none (formats : List String) (fs : FileSystem)
    (sub : SubjectDirectory) (tasks : List SubmittedTask) (out : LoaderOutcome)
    (hstats : sub.hasCerebStatsfile = false)
    (hok : get_subject_dataset formats fs sub = (tasks, Except.ok out)) :
    out.norm = none ∧ out.normFile = none := by
  have hred : get_subject_dataset formats fs sub =
      get_subject_dataset_rest formats fs sub [] none := by
    simp [get_subject_dataset, hstats]
  rw [hred] at hok
  simp only [get_subject_dataset_rest] at hok
  split at hok
  · split at hok
    · simp only [Prod.mk.injEq, Except.ok.injEq] at hok
      rw [← hok.2]
      exact ⟨rfl, rfl⟩
    · split at hok
      · simp only [Prod.mk.injEq, Except.ok.injEq] at hok
        rw [← hok.2]
        exact ⟨rfl, rfl⟩
      · simp at hok
  · simp at hok

theorem no_stats_returns_none_witness :
    subjNoStats.hasCerebStatsfile = false ∧
    get_subject_dataset fmts fsAll subjNoStats =
      ([SubmittedTask.loadImage "sd/aseg.mgz"],
       Except.ok ⟨none, none, "sd/orig.mgz", false, "sd/orig.mgz", "sd/aseg.mgz"⟩) ∧
    (⟨none, none, "sd/orig.mgz", false, "sd/orig.mgz", "sd/aseg.mgz"⟩ : LoaderOutcome).norm = none ∧
    (⟨none, none, "sd/orig.mgz", false, "sd/orig.mgz", "sd/aseg.mgz"⟩ : LoaderOutcome).normFile = none :=
  ⟨rfl, rfl,
    (no_stats_returns_none fmts fsAll subjNoStats [SubmittedTask.loadImage "sd/aseg.mgz"]
      ⟨none, none, "sd/orig.mgz", false, "sd/orig.mgz", "sd/aseg.mgz"⟩ rfl rfl).1,
    (no_stats_returns_none fmts fsAll subjNoStats [SubmittedTask.loadImage "sd/aseg.mgz"]
      ⟨none, none, "sd/orig.mgz", false, "sd/orig.mgz", "sd/aseg.mgz"⟩ rfl rfl).2⟩

end CerebNetInference
